import Mathlib

/-!
# Verification of the announcements router

A shallow embedding of `src/backend/routers/announcements.py` (a FastAPI
CRUD router for school announcements backed by a MongoDB collection),
together with theorems settling the specification's claims about it.

Modelling conventions:
* A MongoDB document of the `announcements` collection becomes the
  `Announcement` structure; `_id` (a BSON ObjectId) is modelled as a `Nat`
  assigned by a counter in the `Store`, and a request-supplied id string is
  parsed by `parseObjectId` (24 hexadecimal characters, as `bson.ObjectId`
  requires).
* The `teachers` collection is a read-only list of usernames; the
  `find_one` existence check becomes `List.contains`.
* `datetime.fromisoformat` is modelled by `fromisoformat`, which accepts
  Python's grammar `YYYY-MM-DD`, optional `T`/space plus
  `HH:MM[:SS[.fff|.ffffff]]`, optional `+HH:MM`/`-HH:MM` offset, with
  full range and calendar validation, and returns a `PyDatetime`: a
  packed digit value (strictly monotone in chronological order) plus an
  `aware` flag recording whether an offset was present.
* An exception no `except` clause catches aborts the request and FastAPI
  answers 500 "Internal Server Error". Comparing an offset-aware parse
  result with the naive `datetime.utcnow()` (line 88, line 143), or an
  aware `start` with a naive `expiration` (line 93, line 149), raises
  such an uncaught `TypeError`; the handlers model it as
  `.error ⟨500, "Internal Server Error"⟩`.
* `datetime.utcnow()` reads are passed in as parameters: `now : Nat` for
  the parsed comparison value used by validation, and a separate string
  for `datetime.utcnow().isoformat()` where the code stores or compares
  ISO strings (`created_at`, and `current_time` in the active query, where
  MongoDB compares the stored strings lexicographically).
* Raising `HTTPException` aborts the handler before any store mutation, so
  each mutating handler returns `Except HTTPError (result × Store)`: an
  `.error` outcome carries no store and leaves the caller's store as it
  was.
* The `try/except Exception` wrapped around the id-based store calls of
  `update` and `delete` can be triggered either by `ObjectId(...)`
  rejecting a malformed id or by the store call itself failing; the latter
  is modelled by the fault-injection flag `dbFault`.
-/

/-- One document of the `announcements` collection. -/
structure Announcement where
  _id : Nat
  message : String
  start_date : Option String
  expiration_date : String
  created_by : String
  created_at : String
deriving DecidableEq, Repr

/-- The `announcements` collection plus the store's id counter. -/
structure Store where
  announcements : List Announcement
  nextId : Nat
deriving DecidableEq, Repr

/-- HTTP error response: `HTTPException(status_code=..., detail=...)`. -/
structure HTTPError where
  status : Nat
  detail : String
deriving DecidableEq, Repr

/-- Request body of `POST /announcements` (`AnnouncementCreate`). -/
structure AnnouncementCreate where
  message : String
  start_date : Option String
  expiration_date : String
  created_by : String
deriving DecidableEq, Repr

/-- Request body of `PUT /announcements/{id}` (`AnnouncementUpdate`). -/
structure AnnouncementUpdate where
  message : Option String
  start_date : Option String
  expiration_date : Option String
deriving DecidableEq, Repr

/-- Python truthiness of an `Optional[str]`: `None` and `""` are falsy. -/
def truthy : Option String → Bool
  | none => false
  | some s => s ≠ ""

/-- Lexicographic comparison of character lists by code point; models the
string comparison MongoDB applies to the stored ISO date strings (and
Python's string order). -/
def listLexLe : List Char → List Char → Bool
  | [], _ => true
  | _ :: _, [] => false
  | c :: cs, d :: ds =>
    if c.toNat < d.toNat then true
    else if d.toNat < c.toNat then false
    else listLexLe cs ds

/-- Lexicographic order on strings. -/
def strLe (s t : String) : Bool := listLexLe s.toList t.toList

/-- Python's `str.replace` for a single-character needle: every occurrence
of `c` in `s` is replaced by `r`. -/
def replaceChar (s : String) (c : Char) (r : String) : String :=
  String.mk (s.toList.foldr
    (fun x acc => if x = c then r.toList ++ acc else x :: acc) [])

/-- The `.replace('Z', '+00:00')` preprocessing the handlers apply before
`datetime.fromisoformat`. -/
def zReplace (s : String) : String := replaceChar s 'Z' "+00:00"

/-- Numeric value of a decimal digit character. -/
def digitVal (c : Char) : Nat := c.toNat - '0'.toNat

/-- Value of a two-digit group. -/
def twoVal (a b : Char) : Nat := 10 * digitVal a + digitVal b

/-- Gregorian leap-year rule, as `datetime` validates day-of-month. -/
def isLeapYear (y : Nat) : Bool :=
  y % 4 == 0 && (y % 100 != 0 || y % 400 == 0)

/-- Number of days of a month, as `datetime` validates day-of-month. -/
def daysInMonth (y mo : Nat) : Nat :=
  if mo = 2 then (if isLeapYear y then 29 else 28)
  else if mo = 4 ∨ mo = 6 ∨ mo = 9 ∨ mo = 11 then 30
  else 31

/-- Result of Python's `datetime.fromisoformat`: the timestamp packed as
digits (strictly monotone in chronological order among naive values) and
whether the parsed datetime is offset-aware. The packed value of an aware
datetime ignores its offset: in the handlers an aware value always hits
the uncaught `TypeError` (naive-vs-aware comparison) before its magnitude
could matter. -/
structure PyDatetime where
  val : Nat
  aware : Bool
deriving DecidableEq, Repr

/-- Pack a parsed timestamp into one comparable number. -/
def packDatetime (y mo d h mi se micro : Nat) : Nat :=
  ((((((y * 100 + mo) * 100 + d) * 100 + h) * 100 + mi) * 100 + se))
    * 1000000 + micro

/-- Parse an optional trailing UTC-offset group `+HH:MM`/`-HH:MM` (the
offsets Python accepts, restricted to the no-seconds form every CPython
release supports). Returns the awareness flag; `none` means the trailing
characters are not a valid offset. -/
def parseOffsetChars : List Char → Option Bool
  | [] => some false
  | [sign, o1, o2, c, o3, o4] =>
    if (sign = '+' ∨ sign = '-') ∧ c = ':' ∧
        ([o1, o2, o3, o4].all Char.isDigit) ∧
        twoVal o1 o2 ≤ 23 ∧ twoVal o3 o4 ≤ 59 then
      some true
    else none
  | _ => none

/-- Parse the fractional-second digits after the dot: 3 or 6 digits (the
lengths every CPython release accepts), yielding microseconds and the
remaining characters. -/
def parseFracMicro (fs : List Char) : Option (Nat × List Char) :=
  let ds := fs.takeWhile Char.isDigit
  let rest := fs.dropWhile Char.isDigit
  if ds.length = 3 then
    some (1000 * ds.foldl (fun a c => 10 * a + digitVal c) 0, rest)
  else if ds.length = 6 then
    some (ds.foldl (fun a c => 10 * a + digitVal c) 0, rest)
  else none

/-- Parse the time-of-day part `HH:MM[:SS[.frac]][offset]` with range
validation, returning hour, minute, second, microsecond and awareness. -/
def parseTimeChars : List Char → Option (Nat × Nat × Nat × Nat × Bool)
  | h1 :: h2 :: ':' :: m1 :: m2 :: rest =>
    if ([h1, h2, m1, m2].all Char.isDigit) ∧
        twoVal h1 h2 ≤ 23 ∧ twoVal m1 m2 ≤ 59 then
      match rest with
      | [] => some (twoVal h1 h2, twoVal m1 m2, 0, 0, false)
      | ':' :: s1 :: s2 :: rest2 =>
        if (s1.isDigit ∧ s2.isDigit) ∧ twoVal s1 s2 ≤ 59 then
          match rest2 with
          | [] => some (twoVal h1 h2, twoVal m1 m2, twoVal s1 s2, 0, false)
          | c :: fs =>
            if c = '.' then
              match parseFracMicro fs with
              | none => none
              | some (micro, rest3) =>
                match parseOffsetChars rest3 with
                | none => none
                | some aware =>
                  some (twoVal h1 h2, twoVal m1 m2, twoVal s1 s2, micro,
                    aware)
            else
              match parseOffsetChars (c :: fs) with
              | none => none
              | some aware =>
                some (twoVal h1 h2, twoVal m1 m2, twoVal s1 s2, 0, aware)
        else none
      | _ =>
        match parseOffsetChars rest with
        | none => none
        | some aware => some (twoVal h1 h2, twoVal m1 m2, 0, 0, aware)
    else none
  | _ => none

/-- Model of Python's `datetime.fromisoformat`: accepts
`YYYY-MM-DD`, optionally followed by a `T` or space separator and
`HH:MM[:SS[.fff|.ffffff]]`, optionally followed by a `+HH:MM`/`-HH:MM`
offset, with full range and calendar validation (year at least 1, month
1-12, real day-of-month with leap years, hour to 23, minute/second to 59,
offset below 24 hours). An offset makes the result aware. The modelled grammar is the one every
CPython release (3.7 onward) accepts: fractional seconds of 3 or 6
digits, separator `T` or space, offsets without seconds; CPython 3.11+
additionally accepts other fraction lengths, compact offsets and further
ISO-8601 forms, so inputs outside this grammar are settled only up to
this documented restriction. -/
def fromisoformat (s : String) : Option PyDatetime :=
  match s.toList with
  | y1 :: y2 :: y3 :: y4 :: '-' :: m1 :: m2 :: '-' :: d1 :: d2 :: rest =>
    if ([y1, y2, y3, y4, m1, m2, d1, d2].all Char.isDigit) then
      let y := 1000 * digitVal y1 + 100 * digitVal y2 +
        10 * digitVal y3 + digitVal y4
      let mo := twoVal m1 m2
      let d := twoVal d1 d2
      if 1 ≤ y ∧ 1 ≤ mo ∧ mo ≤ 12 ∧ 1 ≤ d ∧ d ≤ daysInMonth y mo then
        match rest with
        | [] => some ⟨packDatetime y mo d 0 0 0 0, false⟩
        | sep :: ts =>
          if sep = 'T' ∨ sep = ' ' then
            match parseTimeChars ts with
            | none => none
            | some (h, mi, se, micro, aware) =>
              some ⟨packDatetime y mo d h mi se micro, aware⟩
          else none
      else none
    else none
  | _ => none

/-- Hexadecimal digit test, as accepted by `bson.ObjectId`. -/
def hexDigit (c : Char) : Bool :=
  c.isDigit || ('a' ≤ c && c ≤ 'f') || ('A' ≤ c && c ≤ 'F')

/-- Value of a hexadecimal digit. -/
def hexVal (c : Char) : Nat :=
  if c.isDigit then c.toNat - '0'.toNat
  else if 'a' ≤ c && c ≤ 'f' then 10 + c.toNat - 'a'.toNat
  else 10 + c.toNat - 'A'.toNat

/-- Model of the `bson.ObjectId` constructor on a string argument: it
accepts exactly 24 hexadecimal characters and otherwise raises (which the
handlers map to a 400 response). -/
def parseObjectId (s : String) : Option Nat :=
  if s.length = 24 ∧ s.toList.all hexDigit then
    some (s.toList.foldl (fun a c => 16 * a + hexVal c) 0)
  else none

/-- Handler `GET /announcements/active` (`get_active_announcements`): filter the
collection by the query
`{expiration_date: {$gte: now}, $or: [{start_date: None}, {start_date: {$lte: now}}]}`,
where `current_time = datetime.utcnow().isoformat()` and MongoDB compares
the ISO strings. No authentication parameter exists on this route. -/
def get_active_announcements (store : Store) (current_time : String) :
    List Announcement :=
  store.announcements.filter (fun a =>
    strLe current_time a.expiration_date &&
    (match a.start_date with
     | none => true
     | some s => strLe s current_time))

/-- The comparator of `find().sort("created_at", -1)`: `a` comes no later
than `b` when `a`'s `created_at` is at least `b`'s. -/
def annNewerFirst (a b : Announcement) : Prop :=
  strLe b.created_at a.created_at = true

instance : DecidableRel annNewerFirst := fun a b => by
  unfold annNewerFirst; infer_instance

/-- Handler `GET /announcements` (`get_all_announcements`): authentication check
against the `teachers` collection, then
`announcements_collection.find().sort("created_at", -1)`. -/
def get_all_announcements (teachers : List String) (store : Store)
    (username : String) : Except HTTPError (List Announcement) :=
  if !(teachers.contains username) then .error ⟨401, "Unauthorized"⟩
  else .ok (store.announcements.insertionSort annNewerFirst)

/-- Building and inserting the new document in `create_announcement`:
the server stamps `created_at` and the store assigns the id. -/
def insertAnnouncement (store : Store) (announcement : AnnouncementCreate)
    (created_at : String) : Announcement × Store :=
  let doc : Announcement :=
    ⟨store.nextId, announcement.message, announcement.start_date,
      announcement.expiration_date, announcement.created_by, created_at⟩
  (doc, ⟨store.announcements ++ [doc], store.nextId + 1⟩)

/-- Handler `POST /announcements` (`create_announcement`): authentication, then the
validation chain of lines 81-96, then insertion. `now` is the
`datetime.utcnow()` read of the validation; `created_at` the
`datetime.utcnow().isoformat()` stamped into the document. An offset-aware
expiration raises `TypeError` at line 88 (`expiration < utcnow()`), and an
offset-aware start raises it at line 93 (`start >= expiration`, the
expiration being naive at that point); `except ValueError` catches
neither, so both surface as 500. Line 88 uses `<`, so an expiration equal
to `now` passes. -/
def create_announcement (teachers : List String) (store : Store)
    (announcement : AnnouncementCreate) (now : Nat) (created_at : String) :
    Except HTTPError (Announcement × Store) :=
  if !(teachers.contains announcement.created_by) then
    .error ⟨401, "Unauthorized"⟩
  else if announcement.expiration_date = "" then
    .error ⟨400, "Expiration date is required"⟩
  else
    match fromisoformat (zReplace announcement.expiration_date) with
    | none => .error ⟨400, "Invalid date format"⟩
    | some expiration =>
      if expiration.aware then .error ⟨500, "Internal Server Error"⟩
      else if expiration.val < now then
        .error ⟨400, "Expiration date must be in the future"⟩
      else if truthy announcement.start_date then
        match fromisoformat
            (zReplace (announcement.start_date.getD "")) with
        | none => .error ⟨400, "Invalid date format"⟩
        | some start =>
          if start.aware then .error ⟨500, "Internal Server Error"⟩
          else if expiration.val ≤ start.val then
            .error ⟨400, "Start date must be before expiration date"⟩
          else .ok (insertAnnouncement store announcement created_at)
      else .ok (insertAnnouncement store announcement created_at)

/-- The `update_doc` of lines 128-134 is nonempty: at least one field of
the request body `is not None`. -/
def hasUpdateFields (u : AnnouncementUpdate) : Bool :=
  u.message.isSome || u.start_date.isSome || u.expiration_date.isSome

/-- The date validation of `update_announcement`, lines 139-152: the
expiration (when truthy) must parse, be naive (an aware one raises
`TypeError` at line 143, uncaught, hence 500) and not lie strictly before
`now`; when both dates are truthy, the start must parse and precede the
expiration, the comparison of line 149 raising `TypeError` (500) when
exactly one side is aware. Returns the error of the first failing check,
`none` when all pass. The both-aware branch of the final comparison is
dead code here, as in Python: a truthy aware expiration already produced
the 500 at line 143 before line 149 can run. -/
def validateUpdateDates (u : AnnouncementUpdate) (now : Nat) :
    Option HTTPError :=
  let expirationCheck : Option HTTPError :=
    if truthy u.expiration_date then
      match fromisoformat (zReplace (u.expiration_date.getD "")) with
      | none => some ⟨400, "Invalid date format"⟩
      | some expiration =>
        if expiration.aware then some ⟨500, "Internal Server Error"⟩
        else if expiration.val < now then
          some ⟨400, "Expiration date must be in the future"⟩
        else none
    else none
  match expirationCheck with
  | some e => some e
  | none =>
    if truthy u.start_date && truthy u.expiration_date then
      match fromisoformat (zReplace (u.start_date.getD "")) with
      | none => some ⟨400, "Invalid date format"⟩
      | some start =>
        match fromisoformat
            (zReplace (u.expiration_date.getD "")) with
        | none => some ⟨400, "Invalid date format"⟩
        | some expiration =>
          if start.aware != expiration.aware then
            some ⟨500, "Internal Server Error"⟩
          else if expiration.val ≤ start.val then
            some ⟨400, "Start date must be before expiration date"⟩
          else none
    else none

/-- MongoDB `$set` with the `update_doc` of lines 128-134: each field of
the request that `is not None` overwrites the stored field; the others,
and `_id`, `created_by`, `created_at`, are untouched. -/
def applyUpdateDoc (u : AnnouncementUpdate) (a : Announcement) :
    Announcement :=
  { a with
    message := match u.message with | some m => m | none => a.message
    start_date := match u.start_date with
      | some v => some v
      | none => a.start_date
    expiration_date := match u.expiration_date with
      | some v => v
      | none => a.expiration_date }

/-- Replace the first document with the given id (the effect of
`find_one_and_update` on the collection). -/
def replaceFirst : List Announcement → Nat → Announcement → List Announcement
  | [], _, _ => []
  | d :: ds, oid, d' =>
    if d._id = oid then d' :: ds else d :: replaceFirst ds oid d'

/-- Handler `PUT /announcements/{id}` (`update_announcement`): authentication, the
nonempty-`update_doc` check, date validation, then the id-based
`find_one_and_update` inside `try/except Exception` — a malformed id or an
injected store fault (`dbFault`) both yield the 400 "Invalid announcement
ID" response; a well-formed lookup matching nothing yields 404. -/
def update_announcement (teachers : List String) (store : Store)
    (announcement_id : String) (announcement : AnnouncementUpdate)
    (username : String) (now : Nat) (dbFault : Bool) :
    Except HTTPError (Announcement × Store) :=
  if !(teachers.contains username) then .error ⟨401, "Unauthorized"⟩
  else if !(hasUpdateFields announcement) then
    .error ⟨400, "No fields to update"⟩
  else
    match validateUpdateDates announcement now with
    | some e => .error e
    | none =>
      match parseObjectId announcement_id with
      | none => .error ⟨400, "Invalid announcement ID"⟩
      | some oid =>
        if dbFault then .error ⟨400, "Invalid announcement ID"⟩
        else
          match store.announcements.find? (fun d => d._id == oid) with
          | none => .error ⟨404, "Announcement not found"⟩
          | some doc =>
            let updated := applyUpdateDoc announcement doc
            .ok (updated,
              { store with
                announcements := replaceFirst store.announcements oid updated })

/-- Remove the first document with the given id (the effect of
`delete_one`). -/
def eraseFirstById : List Announcement → Nat → List Announcement
  | [], _ => []
  | d :: ds, oid => if d._id = oid then ds else d :: eraseFirstById ds oid

/-- Handler `DELETE /announcements/{id}` (`delete_announcement`): authentication,
then `delete_one` on the parsed id inside `try/except Exception` (modelled
as for update); `deleted_count == 0` yields 404. -/
def delete_announcement (teachers : List String) (store : Store)
    (announcement_id : String) (username : String) (dbFault : Bool) :
    Except HTTPError (String × Store) :=
  if !(teachers.contains username) then .error ⟨401, "Unauthorized"⟩
  else
    match parseObjectId announcement_id with
    | none => .error ⟨400, "Invalid announcement ID"⟩
    | some oid =>
      if dbFault then .error ⟨400, "Invalid announcement ID"⟩
      else if store.announcements.any (fun d => d._id == oid) then
        .ok ("Announcement deleted successfully",
          { store with announcements := eraseFirstById store.announcements oid })
      else .error ⟨404, "Announcement not found"⟩

/-- Modelled from the spec: the data-model invariant of section 3,
"`start_date` (if present) is strictly earlier than `expiration_date`",
read on the parsed timestamp values of the stored strings. -/
def datesInvariant (a : Announcement) : Bool :=
  match a.start_date with
  | none => true
  | some s =>
    match fromisoformat (zReplace s),
        fromisoformat (zReplace a.expiration_date) with
    | some sv, some ev => sv.val < ev.val
    | _, _ => false

/-! ## Order properties of the lexicographic comparison -/

theorem listLexLe_total : ∀ l m : List Char,
    listLexLe l m = true ∨ listLexLe m l = true
  | [], _ => Or.inl rfl
  | _ :: _, [] => Or.inr rfl
  | c :: cs, d :: ds => by
    rcases Nat.lt_trichotomy c.toNat d.toNat with h | h | h
    · left; simp [listLexLe, h]
    · rcases listLexLe_total cs ds with h2 | h2
      · left; simp [listLexLe, h, h2]
      · right; simp [listLexLe, h, h2]
    · right; simp [listLexLe, h]

theorem listLexLe_trans : ∀ l m n : List Char,
    listLexLe l m = true → listLexLe m n = true → listLexLe l n = true
  | [], _, _, _, _ => rfl
  | _ :: _, [], _, h1, _ => by simp [listLexLe] at h1
  | _ :: _, _ :: _, [], _, h2 => by simp [listLexLe] at h2
  | c :: cs, d :: ds, e :: es, h1, h2 => by
    simp only [listLexLe] at h1 h2 ⊢
    split_ifs at h1 h2 ⊢ <;>
      first
        | rfl
        | omega
        | exact listLexLe_trans cs ds es h1 h2

instance : IsTotal Announcement annNewerFirst :=
  ⟨fun a b => listLexLe_total b.created_at.toList a.created_at.toList⟩

instance : IsTrans Announcement annNewerFirst :=
  ⟨fun _ b _ h1 h2 => listLexLe_trans _ b.created_at.toList _ h2 h1⟩

/-! ## C3: characterization of the active-announcements query -/

/-- Claim C3: `list_active` returns exactly the announcements with
`expiration_date >= now` and (`start_date` absent or `start_date <= now`),
`now` being the server time string taken at the start of the call; the
route takes no username and consults no teacher data, so no authentication
is required. -/
theorem active_members_iff (store : Store) (now : String) (a : Announcement) :
    a ∈ get_active_announcements store now ↔
      a ∈ store.announcements ∧
      strLe now a.expiration_date = true ∧
      (a.start_date = none ∨
        ∃ s, a.start_date = some s ∧ strLe s now = true) := by
  unfold get_active_announcements
  rw [List.mem_filter]
  cases h : a.start_date <;> simp [h, Bool.and_eq_true, and_assoc]

/-! ## C5: unknown actors are rejected without store mutation -/

/-- Claim C5: each of `list_all`, `create`, `update`, `delete` called with an
actor username (for create: `created_by`) absent from the teachers
collection fails with 401 Unauthorized; the error return carries no store
mutation, so the announcements collection is unchanged. -/
theorem unknown_actor_unauthorized (teachers : List String) (store : Store)
    (username : String) (c : AnnouncementCreate) (u : AnnouncementUpdate)
    (idStr : String) (now : Nat) (created_at : String) (dbFault : Bool)
    (h : teachers.contains username = false)
    (hc : c.created_by = username) :
    get_all_announcements teachers store username =
      .error ⟨401, "Unauthorized"⟩ ∧
    create_announcement teachers store c now created_at =
      .error ⟨401, "Unauthorized"⟩ ∧
    update_announcement teachers store idStr u username now dbFault =
      .error ⟨401, "Unauthorized"⟩ ∧
    delete_announcement teachers store idStr username dbFault =
      .error ⟨401, "Unauthorized"⟩ := by
  have h' : username ∉ teachers := by simpa using h
  refine ⟨?_, ?_, ?_, ?_⟩ <;>
    simp [get_all_announcements, create_announcement, update_announcement,
      delete_announcement, hc, h']

/-- Witness for C5 at a concrete unknown actor. -/
theorem unknown_actor_unauthorized_witness :
    (["teacher1"].contains "intruder" = false) ∧
    (get_all_announcements ["teacher1"] ⟨[], 0⟩ "intruder" =
        .error ⟨401, "Unauthorized"⟩ ∧
      create_announcement ["teacher1"] ⟨[], 0⟩
          ⟨"m", none, "2030-01-01T00:00:00", "intruder"⟩ 0 "c" =
        .error ⟨401, "Unauthorized"⟩ ∧
      update_announcement ["teacher1"] ⟨[], 0⟩ "000000000000000000000000"
          ⟨some "m", none, none⟩ "intruder" 0 false =
        .error ⟨401, "Unauthorized"⟩ ∧
      delete_announcement ["teacher1"] ⟨[], 0⟩ "000000000000000000000000"
          "intruder" false =
        .error ⟨401, "Unauthorized"⟩) :=
  ⟨by decide,
    unknown_actor_unauthorized ["teacher1"] ⟨[], 0⟩ "intruder"
      ⟨"m", none, "2030-01-01T00:00:00", "intruder"⟩
      ⟨some "m", none, none⟩ "000000000000000000000000" 0 "c" false
      (by decide) rfl⟩

/-! ## C8: list_all returns everything, newest created_at first -/

/-- Claim C8: an authorized `list_all` returns a permutation of the whole
announcements collection, sorted with the newest `created_at` first
(`created_at` descending under the store's string comparison). -/
theorem list_all_complete_and_sorted (teachers : List String) (store : Store)
    (username : String) (h : teachers.contains username = true) :
    ∃ l, get_all_announcements teachers store username = .ok l ∧
      l.Perm store.announcements ∧ l.Sorted annNewerFirst := by
  have h' : username ∈ teachers := by simpa using h
  exact ⟨_, by simp [get_all_announcements, h', annNewerFirst],
    List.perm_insertionSort _ _, List.sorted_insertionSort _ _⟩

/-- Witness for C8 on a concrete two-element store. -/
theorem list_all_complete_and_sorted_witness :
    (["teacher1"].contains "teacher1" = true) ∧
    (∃ l, get_all_announcements ["teacher1"]
        ⟨[⟨0, "a", none, "2030-01-01T00:00:00", "teacher1", "2024-01-01T00:00:00"⟩,
          ⟨1, "b", none, "2030-01-01T00:00:00", "teacher1", "2025-01-01T00:00:00"⟩], 2⟩
        "teacher1" = .ok l ∧
      l.Perm [⟨0, "a", none, "2030-01-01T00:00:00", "teacher1", "2024-01-01T00:00:00"⟩,
        ⟨1, "b", none, "2030-01-01T00:00:00", "teacher1", "2025-01-01T00:00:00"⟩] ∧
      l.Sorted annNewerFirst) :=
  ⟨by decide,
    list_all_complete_and_sorted ["teacher1"]
      ⟨[⟨0, "a", none, "2030-01-01T00:00:00", "teacher1", "2024-01-01T00:00:00"⟩,
        ⟨1, "b", none, "2030-01-01T00:00:00", "teacher1", "2025-01-01T00:00:00"⟩], 2⟩
      "teacher1" (by decide)⟩

/-! ## C10: update with only start_date does no date validation -/

/-- Claim C10: an update supplying only `start_date` (actor authorized, id
well-formed and matching a record, store healthy) succeeds for every
string value, storing the string verbatim without any parsing or format
validation; in particular it never produces the "Invalid date format"
error. -/
theorem update_start_only_stored_verbatim (teachers : List String)
    (store : Store) (idStr s username : String) (now : Nat) (oid : Nat)
    (old : Announcement)
    (hauth : teachers.contains username = true)
    (hid : parseObjectId idStr = some oid)
    (hfind : store.announcements.find? (fun d => d._id == oid) = some old) :
    update_announcement teachers store idStr ⟨none, some s, none⟩
        username now false =
      .ok ({ old with start_date := some s },
        { store with
          announcements := replaceFirst store.announcements oid
            { old with start_date := some s } }) := by
  have h' : username ∈ teachers := by simpa using hauth
  simp [update_announcement, h', hasUpdateFields, validateUpdateDates,
    truthy, hid, hfind, applyUpdateDoc]

/-- Witness for C10 with a start_date that is not a date at all. -/
theorem update_start_only_stored_verbatim_witness :
    (["teacher1"].contains "teacher1" = true) ∧
    (parseObjectId "000000000000000000000000" = some 0) ∧
    (([⟨0, "m", none, "2030-01-01T00:00:00", "teacher1", "c"⟩] :
        List Announcement).find? (fun d => d._id == 0) =
      some ⟨0, "m", none, "2030-01-01T00:00:00", "teacher1", "c"⟩) ∧
    (update_announcement ["teacher1"]
        ⟨[⟨0, "m", none, "2030-01-01T00:00:00", "teacher1", "c"⟩], 1⟩
        "000000000000000000000000" ⟨none, some "totally not a date", none⟩
        "teacher1" 0 false =
      .ok (⟨0, "m", some "totally not a date", "2030-01-01T00:00:00",
          "teacher1", "c"⟩,
        ⟨[⟨0, "m", some "totally not a date", "2030-01-01T00:00:00",
          "teacher1", "c"⟩], 1⟩)) :=
  ⟨by decide, by decide, by decide,
    update_start_only_stored_verbatim ["teacher1"]
      ⟨[⟨0, "m", none, "2030-01-01T00:00:00", "teacher1", "c"⟩], 1⟩
      "000000000000000000000000" "totally not a date" "teacher1" 0 0
      ⟨0, "m", none, "2030-01-01T00:00:00", "teacher1", "c"⟩
      (by decide) (by decide) (by decide)⟩

/-! ## C9: all id-lookup failures collapse to one BadRequest -/

/-- Claim C9: in the id-based lookup step of update and delete, both a malformed
identifier and an arbitrary store-level failure (the injected `dbFault`)
produce the single outcome 400 "Invalid announcement ID"; no other error
classification exists for that step. -/
theorem lookup_failures_single_outcome (teachers : List String)
    (store : Store) (idStr username : String) (u : AnnouncementUpdate)
    (now : Nat) (dbFault : Bool) :
    (teachers.contains username = true → hasUpdateFields u = true →
      validateUpdateDates u now = none →
      (parseObjectId idStr = none ∨ dbFault = true) →
      update_announcement teachers store idStr u username now dbFault =
        .error ⟨400, "Invalid announcement ID"⟩) ∧
    (teachers.contains username = true →
      (parseObjectId idStr = none ∨ dbFault = true) →
      delete_announcement teachers store idStr username dbFault =
        .error ⟨400, "Invalid announcement ID"⟩) := by
  constructor
  · intro hauth hf hv hfail
    have h' : username ∈ teachers := by simpa using hauth
    rcases hfail with hp | hd
    · simp [update_announcement, h', hf, hv, hp]
    · cases hp : parseObjectId idStr <;>
        simp [update_announcement, h', hf, hv, hp, hd]
  · intro hauth hfail
    have h' : username ∈ teachers := by simpa using hauth
    rcases hfail with hp | hd
    · simp [delete_announcement, h', hp]
    · cases hp : parseObjectId idStr <;>
        simp [delete_announcement, h', hp, hd]

/-- Witness for C9: a store-level fault on a well-formed id maps to the
same 400 response for both update and delete. -/
theorem lookup_failures_single_outcome_witness :
    (["teacher1"].contains "teacher1" = true) ∧
    (hasUpdateFields ⟨some "m", none, none⟩ = true) ∧
    (validateUpdateDates ⟨some "m", none, none⟩ 0 = none) ∧
    ((parseObjectId "000000000000000000000000" = none ∨ (true : Bool) = true)) ∧
    (update_announcement ["teacher1"] ⟨[], 0⟩ "000000000000000000000000"
        ⟨some "m", none, none⟩ "teacher1" 0 true =
      .error ⟨400, "Invalid announcement ID"⟩) ∧
    (delete_announcement ["teacher1"] ⟨[], 0⟩ "000000000000000000000000"
        "teacher1" true =
      .error ⟨400, "Invalid announcement ID"⟩) :=
  ⟨by decide, by decide, by decide, Or.inr rfl,
    (lookup_failures_single_outcome ["teacher1"] ⟨[], 0⟩
        "000000000000000000000000" "teacher1" ⟨some "m", none, none⟩ 0
        true).1 (by decide) (by decide) (by decide) (Or.inr rfl),
    (lookup_failures_single_outcome ["teacher1"] ⟨[], 0⟩
        "000000000000000000000000" "teacher1" ⟨some "m", none, none⟩ 0
        true).2 (by decide) (Or.inr rfl)⟩

/-! ## C7: delete error semantics -/

theorem any_id_of_countP_pos (l : List Announcement) (oid : Nat)
    (h : 0 < l.countP (fun d => d._id == oid)) :
    l.any (fun d => d._id == oid) = true := by
  rcases List.countP_pos_iff.mp h with ⟨a, ha, hp⟩
  exact List.any_eq_true.mpr ⟨a, ha, hp⟩

theorem countP_eraseFirstById : ∀ (l : List Announcement) (oid : Nat),
    l.any (fun d => d._id == oid) = true →
    (eraseFirstById l oid).countP (fun d => d._id == oid) + 1 =
      l.countP (fun d => d._id == oid)
  | [], _, h => by simp at h
  | d :: ds, oid, h => by
    by_cases hd : d._id = oid
    · simp [eraseFirstById, hd, List.countP_cons]
    · have hany : ds.any (fun b => b._id == oid) = true := by
        rcases List.any_eq_true.mp h with ⟨a, ha, hp⟩
        rcases List.mem_cons.mp ha with rfl | ha2
        · exact absurd (by simpa using hp) hd
        · exact List.any_eq_true.mpr ⟨a, ha2, hp⟩
      simp only [eraseFirstById, hd, if_false, List.countP_cons]
      have := countP_eraseFirstById ds oid hany
      simp [hd]
      omega

/-- Claim C7: for an authorized delete, a malformed id yields 400 "Invalid
announcement ID" and a well-formed id matching no record yields 404, the
store being untouched (the error return carries no mutation); and when
exactly one record carries the id, the first delete succeeds, removing it,
and repeating the same delete yields 404. -/
theorem delete_error_semantics (teachers : List String) (store : Store)
    (username : String) (idStr : String)
    (hauth : teachers.contains username = true) :
    (parseObjectId idStr = none →
      delete_announcement teachers store idStr username false =
        .error ⟨400, "Invalid announcement ID"⟩) ∧
    (∀ oid, parseObjectId idStr = some oid →
      store.announcements.any (fun d => d._id == oid) = false →
      delete_announcement teachers store idStr username false =
        .error ⟨404, "Announcement not found"⟩) ∧
    (∀ oid, parseObjectId idStr = some oid →
      store.announcements.countP (fun d => d._id == oid) = 1 →
      delete_announcement teachers store idStr username false =
        .ok ("Announcement deleted successfully",
          { store with
            announcements := eraseFirstById store.announcements oid }) ∧
      delete_announcement teachers
          { store with
            announcements := eraseFirstById store.announcements oid }
          idStr username false =
        .error ⟨404, "Announcement not found"⟩) := by
  have h' : username ∈ teachers := by simpa using hauth
  refine ⟨?_, ?_, ?_⟩
  · intro hp
    simp [delete_announcement, h', hp]
  · intro oid hp hany
    simp only [List.any_eq_false, beq_iff_eq] at hany
    simp [delete_announcement, h', hp]
    exact hany
  · intro oid hp hcount
    have hany : store.announcements.any (fun d => d._id == oid) = true :=
      any_id_of_countP_pos _ _ (by omega)
    have herased := countP_eraseFirstById store.announcements oid hany
    have hany2 :
        (eraseFirstById store.announcements oid).any
          (fun d => d._id == oid) = false := by
      by_contra hc
      have : (eraseFirstById store.announcements oid).any
          (fun d => d._id == oid) = true := by
        cases hx : (eraseFirstById store.announcements oid).any
            (fun d => d._id == oid) <;> simp_all
      have hpos :
          0 < (eraseFirstById store.announcements oid).countP
            (fun d => d._id == oid) := by
        rcases List.any_eq_true.mp this with ⟨a, ha, hpa⟩
        exact List.countP_pos_iff.mpr ⟨a, ha, hpa⟩
      omega
    constructor
    · simp only [List.any_eq_true, beq_iff_eq] at hany
      simp [delete_announcement, h', hp, hany]
    · simp only [List.any_eq_false, beq_iff_eq] at hany2
      simp [delete_announcement, h', hp]
      exact hany2

/-- Witness for C7: malformed id, absent id, and a double delete on a
one-element store. -/
theorem delete_error_semantics_witness :
    (["teacher1"].contains "teacher1" = true) ∧
    (delete_announcement ["teacher1"]
        ⟨[⟨0, "m", none, "2030-01-01T00:00:00", "teacher1", "c"⟩], 1⟩
        "not-an-objectid" "teacher1" false =
      .error ⟨400, "Invalid announcement ID"⟩) ∧
    (delete_announcement ["teacher1"]
        ⟨[⟨0, "m", none, "2030-01-01T00:00:00", "teacher1", "c"⟩], 1⟩
        "0000000000000000000000ff" "teacher1" false =
      .error ⟨404, "Announcement not found"⟩) ∧
    (delete_announcement ["teacher1"]
        ⟨[⟨0, "m", none, "2030-01-01T00:00:00", "teacher1", "c"⟩], 1⟩
        "000000000000000000000000" "teacher1" false =
      .ok ("Announcement deleted successfully", ⟨[], 1⟩) ∧
      delete_announcement ["teacher1"] ⟨[], 1⟩
        "000000000000000000000000" "teacher1" false =
      .error ⟨404, "Announcement not found"⟩) := by
  refine ⟨by decide, ?_, ?_, ?_⟩
  · exact (delete_error_semantics ["teacher1"]
      ⟨[⟨0, "m", none, "2030-01-01T00:00:00", "teacher1", "c"⟩], 1⟩
      "teacher1" "not-an-objectid" (by decide)).1 (by decide)
  · exact (delete_error_semantics ["teacher1"]
      ⟨[⟨0, "m", none, "2030-01-01T00:00:00", "teacher1", "c"⟩], 1⟩
      "teacher1" "0000000000000000000000ff" (by decide)).2.1 255
      (by decide) (by decide)
  · exact (delete_error_semantics ["teacher1"]
      ⟨[⟨0, "m", none, "2030-01-01T00:00:00", "teacher1", "c"⟩], 1⟩
      "teacher1" "000000000000000000000000" (by decide)).2.2 0
      (by decide) (by decide)

/-! ## C6: frame condition of update -/

theorem mem_replaceFirst_of_ne :
    ∀ (l : List Announcement) (oid : Nat) (d' b : Announcement),
      b ∈ l → b._id ≠ oid → b ∈ replaceFirst l oid d'
  | [], _, _, _, h, _ => absurd h (List.not_mem_nil _)
  | x :: xs, oid, d', b, h, hne => by
    by_cases hx : x._id = oid
    · rcases List.mem_cons.mp h with rfl | h2
      · exact absurd hx hne
      · simp only [replaceFirst, hx, if_true]
        exact List.mem_cons_of_mem _ h2
    · rcases List.mem_cons.mp h with rfl | h2
      · simp [replaceFirst, hx]
      · simp only [replaceFirst, hx, if_false]
        exact List.mem_cons_of_mem _
          (mem_replaceFirst_of_ne xs oid d' b h2 hne)

/-- Inversion of a successful update: the actor was authorized, the body
nonempty, validation passed, no store fault occurred, the id parsed, a
record matched, and the result is `$set` applied to that record, replacing
it in the collection. -/
theorem update_ok_elim (teachers : List String) (store : Store)
    (idStr : String) (u : AnnouncementUpdate) (username : String)
    (now : Nat) (dbFault : Bool) (d : Announcement) (st' : Store)
    (h : update_announcement teachers store idStr u username now dbFault =
      .ok (d, st')) :
    teachers.contains username = true ∧ hasUpdateFields u = true ∧
    validateUpdateDates u now = none ∧ dbFault = false ∧
    ∃ oid old, parseObjectId idStr = some oid ∧
      store.announcements.find? (fun b => b._id == oid) = some old ∧
      d = applyUpdateDoc u old ∧
      st' = { store with
        announcements := replaceFirst store.announcements oid d } := by
  unfold update_announcement at h
  split at h
  · simp at h
  · rename_i hauth
    split at h
    · simp at h
    · rename_i hfields
      split at h
      · simp at h
      · rename_i hval
        split at h
        · simp at h
        · rename_i oid hid
          split at h
          · simp at h
          · rename_i hfault
            split at h
            · simp at h
            · rename_i old hfind
              simp only [Except.ok.injEq, Prod.mk.injEq] at h
              obtain ⟨hd, hst⟩ := h
              refine ⟨by simpa using hauth, by simpa using hfields, hval,
                by simpa using hfault, oid, old, hid, hfind, hd.symm, ?_⟩
              rw [← hd]
              exact hst.symm

/-- Claim C6: a successful update changes only the supplied fields of the target
record: every unsupplied field keeps its prior value, every supplied field
takes the supplied value, `_id`, `created_by` and `created_at` never
change, the id counter is untouched, and every other record of the store
is still present afterwards. -/
theorem update_frame (teachers : List String) (store : Store)
    (idStr username : String) (u : AnnouncementUpdate) (now : Nat)
    (oid : Nat) (old d : Announcement) (st' : Store)
    (hid : parseObjectId idStr = some oid)
    (hfind : store.announcements.find? (fun b => b._id == oid) = some old)
    (hok : update_announcement teachers store idStr u username now false =
      .ok (d, st')) :
    (u.message = none → d.message = old.message) ∧
    (u.start_date = none → d.start_date = old.start_date) ∧
    (u.expiration_date = none → d.expiration_date = old.expiration_date) ∧
    (∀ m, u.message = some m → d.message = m) ∧
    (∀ v, u.start_date = some v → d.start_date = some v) ∧
    (∀ v, u.expiration_date = some v → d.expiration_date = v) ∧
    d._id = old._id ∧ d.created_by = old.created_by ∧
    d.created_at = old.created_at ∧
    st'.nextId = store.nextId ∧
    (∀ b ∈ store.announcements, b._id ≠ oid → b ∈ st'.announcements) := by
  obtain ⟨-, -, -, -, oid', old', hid', hfind', hd, hst⟩ :=
    update_ok_elim teachers store idStr u username now false d st' hok
  rw [hid] at hid'
  injection hid' with hoid
  subst hoid
  rw [hfind] at hfind'
  injection hfind' with hold
  subst hold
  subst hd hst
  refine ⟨?_, ?_, ?_, ?_, ?_, ?_, ?_, ?_, ?_, rfl, ?_⟩
  · intro hm; simp [applyUpdateDoc, hm]
  · intro hs; simp [applyUpdateDoc, hs]
  · intro he; simp [applyUpdateDoc, he]
  · intro m hm; simp [applyUpdateDoc, hm]
  · intro v hv; simp [applyUpdateDoc, hv]
  · intro v hv; simp [applyUpdateDoc, hv]
  · simp [applyUpdateDoc]
  · simp [applyUpdateDoc]
  · simp [applyUpdateDoc]
  · intro b hb hbne
    exact mem_replaceFirst_of_ne _ _ _ _ hb hbne

/-- Witness for C6: updating only the message of a record leaves both
dates, the id, the author and the creation time unchanged. -/
theorem update_frame_witness :
    (parseObjectId "000000000000000000000000" = some 0) ∧
    (([⟨0, "m", some "2025-01-01T00:00:00", "2030-01-01T00:00:00",
          "teacher1", "c"⟩] :
        List Announcement).find? (fun b => b._id == 0) =
      some ⟨0, "m", some "2025-01-01T00:00:00", "2030-01-01T00:00:00",
        "teacher1", "c"⟩) ∧
    (update_announcement ["teacher1"]
        ⟨[⟨0, "m", some "2025-01-01T00:00:00", "2030-01-01T00:00:00",
          "teacher1", "c"⟩], 1⟩
        "000000000000000000000000" ⟨some "new message", none, none⟩
        "teacher1" 0 false =
      .ok (⟨0, "new message", some "2025-01-01T00:00:00",
          "2030-01-01T00:00:00", "teacher1", "c"⟩,
        ⟨[⟨0, "new message", some "2025-01-01T00:00:00",
          "2030-01-01T00:00:00", "teacher1", "c"⟩], 1⟩)) ∧
    ((⟨none, none, none⟩ : AnnouncementUpdate).start_date = none →
      (⟨0, "new message", some "2025-01-01T00:00:00", "2030-01-01T00:00:00",
        "teacher1", "c"⟩ : Announcement).start_date =
      some "2025-01-01T00:00:00") ∧
    ((⟨0, "new message", some "2025-01-01T00:00:00", "2030-01-01T00:00:00",
        "teacher1", "c"⟩ : Announcement).start_date =
      some "2025-01-01T00:00:00") ∧
    ((⟨0, "new message", some "2025-01-01T00:00:00", "2030-01-01T00:00:00",
        "teacher1", "c"⟩ : Announcement).expiration_date =
      "2030-01-01T00:00:00") :=
  ⟨by decide, by decide, rfl, fun _ => rfl,
    (update_frame ["teacher1"]
      ⟨[⟨0, "m", some "2025-01-01T00:00:00", "2030-01-01T00:00:00",
        "teacher1", "c"⟩], 1⟩
      "000000000000000000000000" "teacher1"
      ⟨some "new message", none, none⟩ 0 0
      ⟨0, "m", some "2025-01-01T00:00:00", "2030-01-01T00:00:00",
        "teacher1", "c"⟩
      ⟨0, "new message", some "2025-01-01T00:00:00", "2030-01-01T00:00:00",
        "teacher1", "c"⟩
      ⟨[⟨0, "new message", some "2025-01-01T00:00:00",
        "2030-01-01T00:00:00", "teacher1", "c"⟩], 1⟩
      (by decide) (by decide) rfl).2.1 rfl,
    (update_frame ["teacher1"]
      ⟨[⟨0, "m", some "2025-01-01T00:00:00", "2030-01-01T00:00:00",
        "teacher1", "c"⟩], 1⟩
      "000000000000000000000000" "teacher1"
      ⟨some "new message", none, none⟩ 0 0
      ⟨0, "m", some "2025-01-01T00:00:00", "2030-01-01T00:00:00",
        "teacher1", "c"⟩
      ⟨0, "new message", some "2025-01-01T00:00:00", "2030-01-01T00:00:00",
        "teacher1", "c"⟩
      ⟨[⟨0, "new message", some "2025-01-01T00:00:00",
        "2030-01-01T00:00:00", "teacher1", "c"⟩], 1⟩
      (by decide) (by decide) rfl).2.2.1 rfl⟩

/-! ## Inversion of a successful create -/

/-- A successful create returns the freshly built document and appends it
to the collection, bumping the id counter. -/
theorem create_ok_elim (teachers : List String) (store : Store)
    (c : AnnouncementCreate) (now : Nat) (created_at : String)
    (d : Announcement) (st' : Store)
    (h : create_announcement teachers store c now created_at =
      .ok (d, st')) :
    teachers.contains c.created_by = true ∧
    d = ⟨store.nextId, c.message, c.start_date, c.expiration_date,
      c.created_by, created_at⟩ ∧
    st' = ⟨store.announcements ++ [d], store.nextId + 1⟩ := by
  unfold create_announcement at h
  split at h
  · simp at h
  · rename_i hauth
    split at h
    · simp at h
    · split at h
      · simp at h
      · rename_i expiration hexp
        split at h
        · simp at h
        · split at h
          · simp at h
          · split at h
            · split at h
              · simp at h
              · rename_i start hstart
                split at h
                · simp at h
                · split at h
                  · simp at h
                  · simp only [insertAnnouncement, Except.ok.injEq,
                      Prod.mk.injEq] at h
                    obtain ⟨hd, hst⟩ := h
                    exact ⟨by simpa using hauth, hd.symm,
                      by rw [← hd]; exact hst.symm⟩
            · simp only [insertAnnouncement, Except.ok.injEq,
                Prod.mk.injEq] at h
              obtain ⟨hd, hst⟩ := h
              exact ⟨by simpa using hauth, hd.symm,
                by rw [← hd]; exact hst.symm⟩

/-- In a successful create, either the supplied `start_date` was falsy
(absent or empty) or both dates parsed and the start strictly precedes the
expiration. -/
theorem create_ok_dates (teachers : List String) (store : Store)
    (c : AnnouncementCreate) (now : Nat) (created_at : String)
    (d : Announcement) (st' : Store)
    (h : create_announcement teachers store c now created_at =
      .ok (d, st')) :
    truthy c.start_date = false ∨
    ∃ sv ev, fromisoformat (zReplace (c.start_date.getD "")) = some sv ∧
      fromisoformat (zReplace c.expiration_date) = some ev ∧
      sv.val < ev.val := by
  unfold create_announcement at h
  split at h
  · simp at h
  · split at h
    · simp at h
    · split at h
      · simp at h
      · rename_i expiration hexp
        split at h
        · simp at h
        · split at h
          · simp at h
          · split at h
            · rename_i htruthy
              split at h
              · simp at h
              · rename_i start hstart
                split at h
                · simp at h
                · split at h
                  · simp at h
                  · rename_i hle
                    exact Or.inr ⟨start, expiration, hstart, hexp, by omega⟩
            · rename_i htruthy
              exact Or.inl (by simpa using htruthy)

/-! ## C1: created announcements are listed and active in their window -/

/-- Claim C1: after any successful create (which enforces a future expiration
and, when a truthy start_date is supplied, start before expiration), the
stored record is returned by `list_all` for every authorized caller, and
at every query time at which its start_date (if any) has passed and its
expiration_date has not (in the store's string order on the ISO strings),
it is returned by `list_active`. -/
theorem create_round_trip (teachers : List String) (store : Store)
    (c : AnnouncementCreate) (now : Nat) (created_at : String)
    (d : Announcement) (st' : Store) (username : String) (t : String)
    (hok : create_announcement teachers store c now created_at =
      .ok (d, st')) :
    (teachers.contains username = true →
      ∃ l, get_all_announcements teachers st' username = .ok l ∧ d ∈ l) ∧
    ((d.start_date = none ∨
        ∃ s, d.start_date = some s ∧ strLe s t = true) →
      strLe t d.expiration_date = true →
      d ∈ get_active_announcements st' t) := by
  obtain ⟨-, hd, hst⟩ :=
    create_ok_elim teachers store c now created_at d st' hok
  have hmem : d ∈ st'.announcements := by
    rw [hst]
    exact List.mem_append_right _ (List.mem_singleton_self d)
  constructor
  · intro hu
    have h' : username ∈ teachers := by simpa using hu
    refine ⟨st'.announcements.insertionSort annNewerFirst, ?_, ?_⟩
    · simp [get_all_announcements, h']
    · simpa using hmem
  · intro hs he
    unfold get_active_announcements
    rw [List.mem_filter]
    refine ⟨hmem, ?_⟩
    rw [Bool.and_eq_true]
    refine ⟨he, ?_⟩
    rcases hs with hnone | ⟨s, hsome, hle⟩
    · simp [hnone]
    · simp [hsome, hle]

/-- Witness for C1: a freshly created announcement shows up in `list_all`
and, at a time inside its window, in `list_active`. -/
theorem create_round_trip_witness :
    (create_announcement ["teacher1"] ⟨[], 0⟩
        ⟨"Exam tomorrow", some "2025-01-01T00:00:00",
          "2030-01-01T00:00:00", "teacher1"⟩
        20250101000000000000 "2025-01-01T00:00:01" =
      .ok (⟨0, "Exam tomorrow", some "2025-01-01T00:00:00",
          "2030-01-01T00:00:00", "teacher1", "2025-01-01T00:00:01"⟩,
        ⟨[⟨0, "Exam tomorrow", some "2025-01-01T00:00:00",
          "2030-01-01T00:00:00", "teacher1", "2025-01-01T00:00:01"⟩], 1⟩)) ∧
    (∃ l, get_all_announcements ["teacher1"]
        ⟨[⟨0, "Exam tomorrow", some "2025-01-01T00:00:00",
          "2030-01-01T00:00:00", "teacher1", "2025-01-01T00:00:01"⟩], 1⟩
        "teacher1" = .ok l ∧
      (⟨0, "Exam tomorrow", some "2025-01-01T00:00:00",
        "2030-01-01T00:00:00", "teacher1", "2025-01-01T00:00:01"⟩ :
        Announcement) ∈ l) ∧
    ((⟨0, "Exam tomorrow", some "2025-01-01T00:00:00",
        "2030-01-01T00:00:00", "teacher1", "2025-01-01T00:00:01"⟩ :
        Announcement) ∈
      get_active_announcements
        ⟨[⟨0, "Exam tomorrow", some "2025-01-01T00:00:00",
          "2030-01-01T00:00:00", "teacher1", "2025-01-01T00:00:01"⟩], 1⟩
        "2026-06-01T00:00:00") :=
  ⟨rfl,
    (create_round_trip ["teacher1"] ⟨[], 0⟩
      ⟨"Exam tomorrow", some "2025-01-01T00:00:00",
        "2030-01-01T00:00:00", "teacher1"⟩
      20250101000000000000 "2025-01-01T00:00:01"
      ⟨0, "Exam tomorrow", some "2025-01-01T00:00:00",
        "2030-01-01T00:00:00", "teacher1", "2025-01-01T00:00:01"⟩
      ⟨[⟨0, "Exam tomorrow", some "2025-01-01T00:00:00",
        "2030-01-01T00:00:00", "teacher1", "2025-01-01T00:00:01"⟩], 1⟩
      "teacher1" "2026-06-01T00:00:00" rfl).1 (by decide),
    (create_round_trip ["teacher1"] ⟨[], 0⟩
      ⟨"Exam tomorrow", some "2025-01-01T00:00:00",
        "2030-01-01T00:00:00", "teacher1"⟩
      20250101000000000000 "2025-01-01T00:00:01"
      ⟨0, "Exam tomorrow", some "2025-01-01T00:00:00",
        "2030-01-01T00:00:00", "teacher1", "2025-01-01T00:00:01"⟩
      ⟨[⟨0, "Exam tomorrow", some "2025-01-01T00:00:00",
        "2030-01-01T00:00:00", "teacher1", "2025-01-01T00:00:01"⟩], 1⟩
      "teacher1" "2026-06-01T00:00:00" rfl).2
      (Or.inr ⟨"2025-01-01T00:00:00", rfl, by decide⟩) (by decide)⟩

/-! ## C4: create validation order (corrected: strictness of the future
check, and the uncaught TypeError on offset-aware dates) -/

/-- When update validation passes with both dates truthy, both parse and
the start strictly precedes the expiration. -/
theorem validateUpdateDates_none_both (u : AnnouncementUpdate) (now : Nat)
    (hs : truthy u.start_date = true) (he : truthy u.expiration_date = true)
    (h : validateUpdateDates u now = none) :
    ∃ sv ev, fromisoformat (zReplace (u.start_date.getD "")) = some sv ∧
      fromisoformat (zReplace (u.expiration_date.getD "")) = some ev ∧
      sv.val < ev.val := by
  cases hpe : fromisoformat (zReplace (u.expiration_date.getD "")) with
  | none =>
    exfalso
    unfold validateUpdateDates at h
    simp [he, hpe] at h
  | some ev =>
    by_cases haw : ev.aware = true
    · exfalso
      unfold validateUpdateDates at h
      simp [he, hpe, haw] at h
    · by_cases hlt : ev.val < now
      · exfalso
        unfold validateUpdateDates at h
        simp [he, hpe, haw, hlt] at h
      · cases hps : fromisoformat (zReplace (u.start_date.getD "")) with
        | none =>
          exfalso
          unfold validateUpdateDates at h
          simp [hs, he, hpe, hps, haw, hlt] at h
        | some sv =>
          by_cases hsaw : sv.aware = true
          · exfalso
            unfold validateUpdateDates at h
            simp [hs, he, hpe, hps, haw, hlt, hsaw] at h
          · by_cases hle : ev.val ≤ sv.val
            · exfalso
              unfold validateUpdateDates at h
              simp [hs, he, hpe, hps, haw, hlt, hsaw, hle] at h
            · exact ⟨sv, ev, rfl, rfl, by omega⟩

/-- Claim C2 (amended): the invariant "start_date strictly before
expiration_date on the parsed values" holds for every record produced by a
successful create whose start_date is not the unvalidated empty string,
and for every record produced by a successful update that supplies both
date fields (truthy); an update supplying only one of the two date fields
performs no cross-check against the stored other field and can break the
invariant. -/
theorem dates_invariant_create_and_full_update (teachers : List String)
    (store : Store) (c : AnnouncementCreate) (now : Nat)
    (created_at : String) (u : AnnouncementUpdate)
    (idStr username : String) (now2 : Nat) (dbFault : Bool)
    (d d' : Announcement) (st' st2 : Store) :
    (create_announcement teachers store c now created_at = .ok (d, st') →
      c.start_date ≠ some "" → datesInvariant d = true) ∧
    (update_announcement teachers store idStr u username now2 dbFault =
        .ok (d', st2) →
      truthy u.start_date = true → truthy u.expiration_date = true →
      datesInvariant d' = true) := by
  constructor
  · intro hok hne
    obtain ⟨-, hd, -⟩ :=
      create_ok_elim teachers store c now created_at d st' hok
    have hdates :=
      create_ok_dates teachers store c now created_at d st' hok
    subst hd
    rcases hdates with hfalsy | ⟨sv, ev, hs, he, hlt⟩
    · cases hcs : c.start_date with
      | none => simp [datesInvariant, hcs]
      | some s =>
        exfalso
        rw [hcs] at hfalsy
        simp [truthy] at hfalsy
        exact hne (by rw [hcs, hfalsy])
    · cases hcs : c.start_date with
      | none =>
        have hempty :
            fromisoformat (zReplace ((none : Option String).getD "")) =
              none := by decide
        rw [hcs, hempty] at hs
        cases hs
      | some s0 =>
        rw [hcs] at hs
        simp only [Option.getD_some] at hs
        simp [datesInvariant, hcs, hs, he, hlt]
  · intro hok hs he
    obtain ⟨-, -, hval, -, oid, old, -, -, hd, -⟩ :=
      update_ok_elim teachers store idStr u username now2 dbFault d' st2 hok
    obtain ⟨sv, ev, hps, hpe, hlt⟩ :=
      validateUpdateDates_none_both u now2 hs he hval
    cases hus : u.start_date with
    | none => rw [hus] at hs; simp [truthy] at hs
    | some v =>
      cases hue : u.expiration_date with
      | none => rw [hue] at he; simp [truthy] at he
      | some w =>
        subst hd
        rw [hus] at hps
        rw [hue] at hpe
        simp only [Option.getD_some] at hps hpe
        simp [datesInvariant, applyUpdateDoc, hus, hue, hps, hpe, hlt]

/-- Witness for C2: a create with a valid start_date and an update
supplying both dates each yield a record satisfying the invariant. -/
theorem dates_invariant_witness :
    (create_announcement ["t"] ⟨[], 0⟩
        ⟨"m", some "2025-01-01T00:00:00", "2030-01-01T00:00:00", "t"⟩
        0 "c" =
      .ok (⟨0, "m", some "2025-01-01T00:00:00", "2030-01-01T00:00:00",
          "t", "c"⟩,
        ⟨[⟨0, "m", some "2025-01-01T00:00:00", "2030-01-01T00:00:00",
          "t", "c"⟩], 1⟩)) ∧
    datesInvariant ⟨0, "m", some "2025-01-01T00:00:00",
      "2030-01-01T00:00:00", "t", "c"⟩ = true ∧
    (update_announcement ["t"]
        ⟨[⟨0, "m", some "2025-01-01T00:00:00", "2030-01-01T00:00:00",
          "t", "c"⟩], 1⟩
        "000000000000000000000000"
        ⟨none, some "2026-01-01T00:00:00", some "2031-01-01T00:00:00"⟩
        "t" 0 false =
      .ok (⟨0, "m", some "2026-01-01T00:00:00", "2031-01-01T00:00:00",
          "t", "c"⟩,
        ⟨[⟨0, "m", some "2026-01-01T00:00:00", "2031-01-01T00:00:00",
          "t", "c"⟩], 1⟩)) ∧
    datesInvariant ⟨0, "m", some "2026-01-01T00:00:00",
      "2031-01-01T00:00:00", "t", "c"⟩ = true :=
  ⟨rfl,
    (dates_invariant_create_and_full_update ["t"] ⟨[], 0⟩
      ⟨"m", some "2025-01-01T00:00:00", "2030-01-01T00:00:00", "t"⟩ 0 "c"
      ⟨none, some "2026-01-01T00:00:00", some "2031-01-01T00:00:00"⟩
      "000000000000000000000000" "t" 0 false
      ⟨0, "m", some "2025-01-01T00:00:00", "2030-01-01T00:00:00", "t", "c"⟩
      ⟨0, "m", some "2026-01-01T00:00:00", "2031-01-01T00:00:00", "t", "c"⟩
      ⟨[⟨0, "m", some "2025-01-01T00:00:00", "2030-01-01T00:00:00",
        "t", "c"⟩], 1⟩
      ⟨[⟨0, "m", some "2026-01-01T00:00:00", "2031-01-01T00:00:00",
        "t", "c"⟩], 1⟩).1 rfl (by decide),
    rfl,
    (dates_invariant_create_and_full_update ["t"]
      ⟨[⟨0, "m", some "2025-01-01T00:00:00", "2030-01-01T00:00:00",
        "t", "c"⟩], 1⟩
      ⟨"m", some "2025-01-01T00:00:00", "2030-01-01T00:00:00", "t"⟩ 0 "c"
      ⟨none, some "2026-01-01T00:00:00", some "2031-01-01T00:00:00"⟩
      "000000000000000000000000" "t" 0 false
      ⟨0, "m", some "2025-01-01T00:00:00", "2030-01-01T00:00:00", "t", "c"⟩
      ⟨0, "m", some "2026-01-01T00:00:00", "2031-01-01T00:00:00", "t", "c"⟩
      ⟨[⟨0, "m", some "2025-01-01T00:00:00", "2030-01-01T00:00:00",
        "t", "c"⟩], 1⟩
      ⟨[⟨0, "m", some "2026-01-01T00:00:00", "2031-01-01T00:00:00",
        "t", "c"⟩], 1⟩).2 rfl (by decide) (by decide)⟩

/-- Counterexample to C2 as stated: a record satisfying the invariant is
modified by an update that supplies only start_date; the update succeeds
with no cross-check against the stored expiration_date and the resulting
record violates the invariant (start 2099 after expiration 2030). -/
theorem update_start_only_breaks_invariant :
    datesInvariant ⟨0, "m", some "2020-01-01T00:00:00",
      "2030-01-01T00:00:00", "t", "c"⟩ = true ∧
    update_announcement ["t"]
        ⟨[⟨0, "m", some "2020-01-01T00:00:00", "2030-01-01T00:00:00",
          "t", "c"⟩], 1⟩
        "000000000000000000000000"
        ⟨none, some "2099-01-01T00:00:00", none⟩ "t" 0 false =
      .ok (⟨0, "m", some "2099-01-01T00:00:00", "2030-01-01T00:00:00",
          "t", "c"⟩,
        ⟨[⟨0, "m", some "2099-01-01T00:00:00", "2030-01-01T00:00:00",
          "t", "c"⟩], 1⟩) ∧
    datesInvariant ⟨0, "m", some "2099-01-01T00:00:00",
      "2030-01-01T00:00:00", "t", "c"⟩ = false :=
  ⟨by decide, rfl, by decide⟩
